import Mathlib

/-!
Shallow embedding of the SSO / device-authorization core of byteplus-cli.

Sources embedded (Go):
- `src/unnamed/part_000` (package cmd): `Sso`, `DeviceCodeFetcher`, the token
  and client-registration caches, `classifyCreateTokenError`, `GetToken`,
  `performDeviceAuthorization`, `Logout`, `revokeCachedToken`,
  `clearProfileStsCredentials`, `fetchAllAccounts`, `fetchAllRoles`.
- `src/cmd/oauth_client.go`: `OAuthClient` operations and their local
  validations, `OAuthAPIError`.
- `src/cmd/portal_client.go`: `computeNextToken`, `resolvePageNumber`,
  portal list responses.
- `src/unnamed/part_001`: `Profile`, `Configure`, `SsoSession`.

Modelling conventions:
- Machine integers (Go `int`, `int64`) are modelled as `Int`.
- Wall-clock time is abstract: a `Clock` carries the current instant (`now`,
  seconds scale, and `nowMilli`, epoch-millisecond scale) together with an
  uninterpreted RFC3339 parser and formatter.  During the poll loop, time
  advances only by the modelled sleeps.
- The network is an oracle (`NetEnv`): each outgoing request is answered by a
  deterministic function of the request (and a per-operation call counter for
  operations that may be issued several times).  Every network call is also
  recorded in a trace of `NetOp`s, so "performs no network call" is the
  statement that the trace does not grow.
- The two cache files are modelled by their parse outcome
  (`TokenCacheFile`, `RegCacheFile`); `writeJSONFileAtomic` and `os.Remove`
  are modelled as always succeeding, which the claims under study never
  exercise.
-/

deriving instance DecidableEq for Except

namespace ByteplusCli

/-- Go `strings.TrimSpace`, as a structurally recursive function on the
string's characters so that concrete instances evaluate in the kernel
(core `String.trim` is defined by well-founded recursion on byte positions).
Go trims Unicode white space; `Char.isWhitespace` covers the ASCII subset,
which is all the embedded code ever feeds it. -/
def trimSpace (s : String) : String :=
  ⟨((s.data.dropWhile Char.isWhitespace).reverse.dropWhile Char.isWhitespace).reverse⟩

/-- Go `strings.ToLower`, as a structurally recursive character map
(`String.toLower` is position-based and does not reduce in the kernel). -/
def toLowerStr (s : String) : String :=
  ⟨s.data.map Char.toLower⟩

/-- Go constant `deviceCodeGrantType` (src/cmd/oauth_client.go line 29). -/
def deviceCodeGrantType : String := "urn:ietf:params:oauth:grant-type:device_code"

/-- Abstract wall clock and RFC3339 codec (Go `time.Now`, `time.Parse`,
`Format(time.RFC3339)` are uninterpreted). -/
structure Clock where
  now : Int
  nowMilli : Int
  parseRFC3339 : String → Option Int
  fmtRFC3339 : Int → String

/-- Body of an OAuth error response (src/cmd/oauth_client.go `oauthErrorResponse`). -/
structure OauthErrorResponse where
  Error : String
  ErrorDescription : String
deriving DecidableEq, Repr

/-- Go `error` values as the claims need them: `oauthAPI` is an
`*OAuthAPIError`, `msg` is a plain `fmt.Errorf` message, and `wrap` is
`fmt.Errorf("...: %w", err)` (which `errors.As` looks through). -/
inductive GoError where
  | oauthAPI (statusCode : Int) (resp : OauthErrorResponse)
  | msg (s : String)
  | wrap (context : String) (inner : GoError)
deriving DecidableEq, Repr

/-- Go `oauthErrorCode` (src/unnamed/part_000 lines 440-446): `errors.As`
finds an `*OAuthAPIError` anywhere in the wrap chain and yields its code. -/
def oauthErrorCode : GoError → Option String
  | .oauthAPI _ resp => some resp.Error
  | .msg _ => none
  | .wrap _ inner => oauthErrorCode inner

/-- Go `createTokenErrorAction` (src/unnamed/part_000 lines 448-453). -/
structure createTokenErrorAction where
  Retry : Bool := false
  ReRegister : Bool := false
  FallbackToDeviceAuth : Bool := false
  Message : String := ""
deriving DecidableEq, Repr

/-- Go `classifyCreateTokenError` (src/unnamed/part_000 lines 455-484).
The Go `switch` is an equality chain on the extracted code. -/
def classifyCreateTokenError (err : GoError) : createTokenErrorAction × Bool :=
  match oauthErrorCode err with
  | none => ({}, false)
  | some code =>
    if code = "authorization_pending" then
      ({ Retry := true }, true)
    else if code = "invalid_device_code" ∨ code = "expired_token" then
      ({ Message := "device code is invalid or expired; please retry login" }, true)
    else if code = "invalid_token" then
      ({ FallbackToDeviceAuth := true
         Message := "token is invalid; please retry login" }, true)
    else if code = "invalid_request" then
      ({ Message := "token request parameters are invalid" }, true)
    else if code = "invalid_client" then
      ({ ReRegister := true
         Message := "client registration is invalid; please retry login" }, true)
    else if code = "unsupported_grant_type" then
      ({ Message := "token grant type is not supported" }, true)
    else if code = "server_error" then
      ({ Message := "server error while requesting token" }, true)
    else
      ({ Message := "unknown error: " ++ code }, false)

/-- Go `SsoTokenCache` (src/unnamed/part_000 lines 112-123). -/
structure SsoTokenCache where
  StartURL : String := ""
  SessionName : String := ""
  AccessToken : String := ""
  ExpiresAt : String := ""
  ClientId : String := ""
  ClientSecret : String := ""
  ClientIdIssuedAt : Int := 0
  ClientSecretExpiresAt : Int := 0
  RefreshToken : String := ""
  Region : String := ""
deriving DecidableEq, Repr

/-- Go `clientRegistrationCache` (src/unnamed/part_000 lines 131-137). -/
structure clientRegistrationCache where
  ClientName : String := ""
  ClientID : String := ""
  ClientSecret : String := ""
  ClientIDIssuedAt : Int := 0
  ClientSecretExpiresAt : Int := 0
deriving DecidableEq, Repr

/-- Go `RegisterClientResponse` (src/cmd/oauth_client.go lines 63-68). -/
structure RegisterClientResponse where
  ClientID : String := ""
  ClientSecret : String := ""
  ClientIDIssuedAt : Int := 0
  ClientSecretExpiresAt : Int := 0
deriving DecidableEq, Repr

/-- Go `RegisterClientRequest` (src/cmd/oauth_client.go lines 55-60). -/
structure RegisterClientRequest where
  ClientName : String := ""
  ClientType : String := ""
  GrantTypes : List String := []
  Scopes : List String := []
deriving DecidableEq, Repr

/-- Go `CreateTokenRequest` (src/cmd/oauth_client.go lines 71-77). -/
structure CreateTokenRequest where
  GrantType : String := ""
  ClientID : String := ""
  ClientSecret : String := ""
  RefreshToken : String := ""
  DeviceCode : String := ""
deriving DecidableEq, Repr

/-- Go `CreateTokenResponse` (src/cmd/oauth_client.go lines 80-85). -/
structure CreateTokenResponse where
  AccessToken : String := ""
  TokenType : String := ""
  RefreshToken : String := ""
  ExpiresIn : Int := 0
deriving DecidableEq, Repr

/-- Go `RevokeTokenRequest` (src/cmd/oauth_client.go lines 88-92). -/
structure RevokeTokenRequest where
  ClientID : String := ""
  ClientSecret : String := ""
  Token : String := ""
deriving DecidableEq, Repr

/-- Go `StartDeviceAuthorizationRequest` (src/cmd/oauth_client.go lines 97-102). -/
structure StartDeviceAuthorizationRequest where
  ClientID : String := ""
  ClientSecret : String := ""
  Scopes : List String := []
  PortalUrl : String := ""
deriving DecidableEq, Repr

/-- Go `StartDeviceAuthorizationResponse` (src/cmd/oauth_client.go lines 105-112). -/
structure StartDeviceAuthorizationResponse where
  DeviceCode : String := ""
  UserCode : String := ""
  VerificationURI : String := ""
  VerificationURIComplete : String := ""
  ExpiresIn : Int := 0
  Interval : Int := 0
deriving DecidableEq, Repr

/-- Go `tokenExpired` (src/unnamed/part_000 lines 220-229): empty or
unparsable `expires_at` is expired; otherwise expired iff `time.Now()` is
strictly after the parsed instant. -/
def tokenExpired (clock : Clock) (expiresAt : String) : Bool :=
  if expiresAt = "" then true
  else
    match clock.parseRFC3339 expiresAt with
    | none => true
    | some expTime => decide (expTime < clock.now)

/-- Go `clientSecretExpired` (src/unnamed/part_000 lines 231-236):
`0` means "never expires"; otherwise expired iff `now` (epoch millis) has
reached `expiresAt`. -/
def clientSecretExpired (clock : Clock) (expiresAt : Int) : Bool :=
  if expiresAt = 0 then false
  else decide (expiresAt ≤ clock.nowMilli)

/-- State of the on-disk token cache file, by parse outcome:
`missing` = `os.IsNotExist`; `openError` = any other open failure;
`empty` = the file decodes with `io.EOF` (empty input);
`malformed` = any other decode failure; `valid` = decodes to a record. -/
inductive TokenCacheFile where
  | missing
  | openError (detail : String)
  | empty
  | malformed
  | valid (t : SsoTokenCache)
deriving DecidableEq, Repr

/-- State of the on-disk client-registration cache file, by parse
outcome (same reading of outcomes as `TokenCacheFile`). -/
inductive RegCacheFile where
  | missing
  | openError (detail : String)
  | malformed (detail : String)
  | valid (c : clientRegistrationCache)
deriving DecidableEq, Repr

/-- Go `Sso.readTokenCache` (src/unnamed/part_000 lines 192-218).
A missing file is absent (`ok none`); an open failure is an error; a decode
failure that is `io.EOF` (empty file) is absent and the file is kept; any
other decode failure is absent and the file is removed; a decoded record is
returned.  The second component is the file state after the call. -/
def readTokenCache (file : TokenCacheFile) :
    Except GoError (Option SsoTokenCache) × TokenCacheFile :=
  match file with
  | .missing => (.ok none, .missing)
  | .openError detail =>
      (.error (.msg ("failed to open the cache file: " ++ detail)), .openError detail)
  | .empty => (.ok none, .empty)
  | .malformed => (.ok none, .missing)
  | .valid t => (.ok (some t), .valid t)

/-- Go `DeviceCodeFetcher.loadClientRegistration` (src/unnamed/part_000
lines 271-305).  A missing file is absent; an open failure is an error; ANY
decode failure (including an empty file) is surfaced as an error; a decoded
record with an empty client id or secret is absent; otherwise the
registration is returned. -/
def loadClientRegistration (file : RegCacheFile) :
    Except GoError (Option RegisterClientResponse) :=
  match file with
  | .missing => .ok none
  | .openError detail =>
      .error (.msg ("failed to open client cache file: " ++ detail))
  | .malformed detail =>
      .error (.msg ("failed to read the client cache: " ++ detail))
  | .valid cached =>
      if cached.ClientID = "" ∨ cached.ClientSecret = "" then .ok none
      else
        .ok (some { ClientID := cached.ClientID
                    ClientSecret := cached.ClientSecret
                    ClientIDIssuedAt := cached.ClientIDIssuedAt
                    ClientSecretExpiresAt := cached.ClientSecretExpiresAt })

/-- One network operation, for the call trace. -/
inductive NetOp where
  | registerClient
  | createToken
  | revokeToken
  | startDeviceAuth
  | listAccounts
  | listRoles
  | getRoleCredentials
deriving DecidableEq, Repr

/-- Mutable state threaded through a flow invocation: the two cache files,
per-operation call counters for the network oracle, and the trace of
network calls made so far. -/
structure World where
  tokenFile : TokenCacheFile
  regFile : RegCacheFile
  tokenCalls : Nat := 0
  registerCalls : Nat := 0
  trace : List NetOp := []
deriving Repr

/-- Deterministic oracle for the outside world: the clock, the uuid
generator, and the authorization server's answer to each request (indexed
by a call counter for operations issued more than once per flow). -/
structure NetEnv where
  clock : Clock
  uuid : Nat → String
  registerResp : Nat → RegisterClientRequest → Except GoError RegisterClientResponse
  createTokenResp : Nat → CreateTokenRequest → Except GoError CreateTokenResponse
  deviceAuthResp : StartDeviceAuthorizationRequest → Except GoError StartDeviceAuthorizationResponse
  revokeResp : RevokeTokenRequest → Except GoError Unit

/-- Go `OAuthClient.RegisterClient` (src/cmd/oauth_client.go lines 167-183):
validate the client name locally, call the network, and reject an
all-empty response body. -/
def oauthRegisterClient (env : NetEnv) (req : RegisterClientRequest) (w : World) :
    Except GoError RegisterClientResponse × World :=
  if trimSpace req.ClientName = "" then
    (.error (.msg "client_name is required"), w)
  else
    let resp := env.registerResp w.registerCalls req
    let w := { w with registerCalls := w.registerCalls + 1
                      trace := w.trace ++ [NetOp.registerClient] }
    match resp with
    | .error e => (.error e, w)
    | .ok r =>
        if r.ClientID = "" ∧ r.ClientSecret = "" ∧ r.ClientIDIssuedAt = 0 ∧
            r.ClientSecretExpiresAt = 0 then
          (.error (.msg "RegisterClient succeeded but response was empty"), w)
        else (.ok r, w)

/-- Go `OAuthClient.CreateToken` (src/cmd/oauth_client.go lines 186-217):
validate grant type, client credentials, and the grant-specific field
locally, then call the network and reject an all-empty response body. -/
def oauthCreateToken (env : NetEnv) (req : CreateTokenRequest) (w : World) :
    Except GoError CreateTokenResponse × World :=
  if trimSpace req.GrantType = "" then
    (.error (.msg "grantType is required"), w)
  else if trimSpace req.ClientID = "" ∨ trimSpace req.ClientSecret = "" then
    (.error (.msg "clientId and clientSecret are required"), w)
  else
    let grant := toLowerStr req.GrantType
    let grantFieldError : Option GoError :=
      if grant = "refresh_token" then
        if trimSpace req.RefreshToken = "" then
          some (.msg "refreshToken is required for refresh_token grant")
        else none
      else if grant = deviceCodeGrantType ∨ grant = "device_code" then
        if trimSpace req.DeviceCode = "" then
          some (.msg "deviceCode is required for device_code grant")
        else none
      else some (.msg ("grantType " ++ req.GrantType ++ " is not supported"))
    match grantFieldError with
    | some e => (.error e, w)
    | none =>
        let resp := env.createTokenResp w.tokenCalls req
        let w := { w with tokenCalls := w.tokenCalls + 1
                          trace := w.trace ++ [NetOp.createToken] }
        match resp with
        | .error e => (.error e, w)
        | .ok r =>
            if r.AccessToken = "" ∧ r.TokenType = "" ∧ r.RefreshToken = "" ∧
                r.ExpiresIn = 0 then
              (.error (.msg "CreateToken succeeded but response was empty"), w)
            else (.ok r, w)

/-- Go `OAuthClient.RevokeToken` (src/cmd/oauth_client.go lines 220-236):
validate the client credentials and the token locally (no network call on
validation failure), then call the network.  The second component is the
list of network calls performed. -/
def oauthRevokeToken (env : NetEnv) (req : RevokeTokenRequest) :
    Except GoError Unit × List NetOp :=
  if trimSpace req.ClientID = "" ∨ trimSpace req.ClientSecret = "" then
    (.error (.msg "clientId and clientSecret are required"), [])
  else if trimSpace req.Token = "" then
    (.error (.msg "token is required"), [])
  else (env.revokeResp req, [NetOp.revokeToken])

/-- Go `OAuthClient.StartDeviceAuthorization` (src/cmd/oauth_client.go
lines 239-257): validate the client credentials locally, call the network,
and reject an all-empty response body. -/
def oauthStartDeviceAuthorization (env : NetEnv)
    (req : StartDeviceAuthorizationRequest) (w : World) :
    Except GoError StartDeviceAuthorizationResponse × World :=
  if trimSpace req.ClientID = "" ∨ trimSpace req.ClientSecret = "" then
    (.error (.msg "clientId and clientSecret are required"), w)
  else
    let resp := env.deviceAuthResp req
    let w := { w with trace := w.trace ++ [NetOp.startDeviceAuth] }
    match resp with
    | .error e => (.error e, w)
    | .ok r =>
        if r.DeviceCode = "" ∧ r.UserCode = "" ∧ r.VerificationURI = "" ∧
            r.VerificationURIComplete = "" ∧ r.ExpiresIn = 0 ∧ r.Interval = 0 then
          (.error (.msg "StartDeviceAuthorization succeeded but response was empty"), w)
        else (.ok r, w)

/-- Go `Sso` (src/unnamed/part_000 lines 20-28), restricted to the fields
the device-code flow reads.  The `DeviceCodeFetcher` wraps the same fields
plus the OAuth client, which here is the `NetEnv` oracle. -/
structure Sso where
  SsoSessionName : String := ""
  StartURL : String := ""
  Region : String := ""
  UseDeviceCode : Bool := false
  NoBrowser : Bool := false
  Scopes : List String := []
deriving DecidableEq, Repr

/-- Go `Sso.readTokenCache` lifted to the threaded `World` (the file path
resolution of `tokenCacheFilePath` is content-addressed and modelled away:
`w.tokenFile` is the file at that path). -/
def readTokenCacheM (w : World) : Except GoError (Option SsoTokenCache) × World :=
  let (r, tf) := readTokenCache w.tokenFile
  (r, { w with tokenFile := tf })

/-- Go `Sso.setAccessTokenToCache` (src/unnamed/part_000 lines 654-669):
an atomic write of the record to the token cache file, modelled as always
succeeding. -/
def setAccessTokenToCache (token : SsoTokenCache) (w : World) : World :=
  { w with tokenFile := .valid token }

/-- Go `DeviceCodeFetcher.storeToken` (src/unnamed/part_000 lines 387-408):
build the cache record from the token response and the client registration,
stamping `expires_at` as now + `expires_in` seconds, and write it. -/
def storeToken (s : Sso) (env : NetEnv) (resp : CreateTokenResponse)
    (client : Option RegisterClientResponse) (w : World) :
    Except GoError SsoTokenCache × World :=
  match client with
  | none => (.error (.msg "client registration is required to store token"), w)
  | some c =>
      let expiresAt := env.clock.fmtRFC3339 (env.clock.now + resp.ExpiresIn)
      let token : SsoTokenCache :=
        { StartURL := s.StartURL
          SessionName := s.SsoSessionName
          AccessToken := resp.AccessToken
          RefreshToken := resp.RefreshToken
          ExpiresAt := expiresAt
          ClientId := c.ClientID
          ClientSecret := c.ClientSecret
          ClientIdIssuedAt := c.ClientIDIssuedAt
          ClientSecretExpiresAt := c.ClientSecretExpiresAt
          Region := s.Region }
      (.ok token, setAccessTokenToCache token w)

/-- Go `DeviceCodeFetcher.createToken` (src/unnamed/part_000 lines 410-426):
require a client registration, build the request, and call the OAuth
client.  (Conditionally setting `RefreshToken`/`DeviceCode` only when
non-empty coincides with always setting them, since the zero value is "".) -/
def fetcherCreateToken (env : NetEnv) (grantType refreshToken deviceCode : String)
    (client : Option RegisterClientResponse) (w : World) :
    Except GoError CreateTokenResponse × World :=
  match client with
  | none => (.error (.msg "client registration is required to create token"), w)
  | some c =>
      oauthCreateToken env
        { GrantType := grantType
          ClientID := c.ClientID
          ClientSecret := c.ClientSecret
          RefreshToken := refreshToken
          DeviceCode := deviceCode } w

/-- Go `DeviceCodeFetcher.refreshToken` (src/unnamed/part_000 lines 428-438):
create a token with the `refresh_token` grant, then overwrite the
response's refresh token with the one that was sent before storing. -/
def refreshToken (s : Sso) (env : NetEnv) (refreshTok : String)
    (client : Option RegisterClientResponse) (w : World) :
    Except GoError SsoTokenCache × World :=
  match client with
  | none => (.error (.msg "client registration is required to refresh token"), w)
  | some c =>
      match fetcherCreateToken env "refresh_token" refreshTok "" (some c) w with
      | (.error e, w) => (.error e, w)
      | (.ok resp, w) =>
          storeToken s env { resp with RefreshToken := refreshTok } (some c) w

/-- Go `DeviceCodeFetcher.cacheClientRegistration` (src/unnamed/part_000
lines 307-333): reject an empty registration, then write the registration
cache file (directory creation and the atomic write modelled as
succeeding). -/
def cacheClientRegistration (client : Option RegisterClientResponse)
    (clientName : String) (w : World) : Except GoError Unit × World :=
  match client with
  | none => (.error (.msg "client registration is empty"), w)
  | some c =>
      if c.ClientID = "" ∨ c.ClientSecret = "" then
        (.error (.msg "client registration is empty"), w)
      else
        let cache : clientRegistrationCache :=
          { ClientName := clientName
            ClientID := c.ClientID
            ClientSecret := c.ClientSecret
            ClientIDIssuedAt := c.ClientIDIssuedAt
            ClientSecretExpiresAt := c.ClientSecretExpiresAt }
        (.ok (), { w with regFile := .valid cache })

/-- Go `DeviceCodeFetcher.persistClientCredentials` (src/unnamed/part_000
lines 348-365): copy the client identity onto the cached token record (or a
fresh skeleton) and write it to the token cache. -/
def persistClientCredentials (s : Sso) (client : Option RegisterClientResponse)
    (cached : Option SsoTokenCache) (w : World) : Except GoError Unit × World :=
  match client with
  | none => (.error (.msg "client registration is empty"), w)
  | some c =>
      let base : SsoTokenCache :=
        match cached with
        | some t => t
        | none => { StartURL := s.StartURL
                    SessionName := s.SsoSessionName
                    Region := s.Region }
      let token := { base with
        ClientId := c.ClientID
        ClientSecret := c.ClientSecret
        ClientIdIssuedAt := c.ClientIDIssuedAt
        ClientSecretExpiresAt := c.ClientSecretExpiresAt }
      (.ok (), setAccessTokenToCache token w)

/-- Go `DeviceCodeFetcher.registerClient` (src/unnamed/part_000
lines 367-385): register a freshly named client, persist the registration
cache and the (possibly token-less) cache record carrying the client
identity. -/
def registerClient (s : Sso) (env : NetEnv) (cached : Option SsoTokenCache)
    (w : World) : Except GoError RegisterClientResponse × World :=
  let clientName := "byteplus-cli-" ++ env.uuid w.registerCalls
  match oauthRegisterClient env
      { ClientName := clientName
        ClientType := "public"
        GrantTypes := [deviceCodeGrantType, "refresh_token"]
        Scopes := s.Scopes } w with
  | (.error e, w) => (.error (.wrap "failed to register client" e), w)
  | (.ok resp, w) =>
      match cacheClientRegistration (some resp) clientName w with
      | (.error e, w) => (.error (.wrap "failed to persist client registration" e), w)
      | (.ok _, w) =>
          match persistClientCredentials s (some resp) cached w with
          | (.error e, w) => (.error (.wrap "failed to cache client credentials" e), w)
          | (.ok _, w) => (.ok resp, w)

/-- Poll loop of `DeviceCodeFetcher.performDeviceAuthorization`
(src/unnamed/part_000 lines 529-548): while the clock is before the
deadline, sleep `interval` seconds, poll `CreateToken` with the device-code
grant, retry on `authorization_pending`, stop on anything else; past the
deadline, fail with the timeout message.  The caller normalizes the
interval to at least 1 second (`interval <= 0` becomes 5s); `max interval 1`
makes that lower bound explicit so the recursion visibly terminates. -/
def pollLoop (s : Sso) (env : NetEnv) (client : RegisterClientResponse)
    (deviceCode : String) (interval deadline now : Int) (w : World) :
    Except GoError SsoTokenCache × World :=
  if now < deadline then
    let now' := now + max interval 1
    match fetcherCreateToken env deviceCodeGrantType "" deviceCode (some client) w with
    | (.ok tokenResp, w) => storeToken s env tokenResp (some client) w
    | (.error e, w) =>
        match classifyCreateTokenError e with
        | (action, true) =>
            if action.Retry then
              pollLoop s env client deviceCode interval deadline now' w
            else if action.Message ≠ "" then (.error (.msg action.Message), w)
            else (.error (.wrap "failed to poll access token" e), w)
        | (_, false) => (.error (.wrap "failed to poll access token" e), w)
  else (.error (.msg "authorization has timed out. Please try again"), w)
termination_by (deadline - now).toNat
decreasing_by
  have h1 : (1 : Int) ≤ max interval 1 := le_max_right _ _
  omega

/-- Go `DeviceCodeFetcher.performDeviceAuthorization` (src/unnamed/part_000
lines 486-549): start device authorization, synthesize the confirmation URL
when absent, require it non-empty, then poll under the server-declared
deadline.  Browser launching and printed guidance have no modelled effect. -/
def performDeviceAuthorization (s : Sso) (env : NetEnv)
    (client : Option RegisterClientResponse) (w : World) :
    Except GoError SsoTokenCache × World :=
  match client with
  | none =>
      (.error (.msg "client registration is required to start device authorization"), w)
  | some c =>
      match oauthStartDeviceAuthorization env
          { ClientID := c.ClientID
            ClientSecret := c.ClientSecret
            Scopes := s.Scopes
            PortalUrl := s.StartURL } w with
      | (.error e, w) => (.error (.wrap "failed to start device authorization" e), w)
      | (.ok authResp, w) =>
          let verificationURIComplete :=
            if authResp.VerificationURIComplete = "" ∧ authResp.VerificationURI ≠ "" ∧
                authResp.UserCode ≠ "" then
              authResp.VerificationURI ++ "?user_code=" ++ authResp.UserCode
            else authResp.VerificationURIComplete
          if verificationURIComplete = "" then
            (.error (.msg "failed to start device authorization: verificationURI is empty"), w)
          else
            let interval := if authResp.Interval ≤ 0 then 5 else authResp.Interval
            let deadline := env.clock.now + authResp.ExpiresIn
            pollLoop s env c authResp.DeviceCode interval deadline env.clock.now w

/-- Refresh-or-device-authorize tail of `DeviceCodeFetcher.GetToken`
(src/unnamed/part_000 lines 584-607): with the client registration
resolved, try the refresh grant when the cached record carries a refresh
token, classifying a failure into re-register, fallback to device
authorization, or a terminal message; without a refresh token, run device
authorization directly. -/
def getTokenWithClient (s : Sso) (env : NetEnv) (cached : Option SsoTokenCache)
    (client : Option RegisterClientResponse) (w : World) :
    Except GoError SsoTokenCache × World :=
  match cached with
  | some cachedTok =>
      if cachedTok.RefreshToken ≠ "" then
        match refreshToken s env cachedTok.RefreshToken client w with
        | (.ok token, w) => (.ok token, w)
        | (.error e, w) =>
            match classifyCreateTokenError e with
            | (action, true) =>
                if action.ReRegister then
                  match registerClient s env cached w with
                  | (.error e2, w) => (.error e2, w)
                  | (.ok client2, w) => performDeviceAuthorization s env (some client2) w
                else if action.FallbackToDeviceAuth then
                  performDeviceAuthorization s env client w
                else if action.Message ≠ "" then (.error (.msg action.Message), w)
                else (.error e, w)
            | (_, false) => (.error e, w)
      else performDeviceAuthorization s env client w
  | none => performDeviceAuthorization s env client w

/-- Client-resolution middle of `DeviceCodeFetcher.GetToken`
(src/unnamed/part_000 lines 562-582): load the cached registration, fall
back to the client identity embedded in the cache record, register a new
client when the registration is unusable or its secret has expired, and
otherwise persist the usable registration onto the cache record. -/
def getTokenResolveClient (s : Sso) (env : NetEnv) (cached : Option SsoTokenCache)
    (w : World) : Except GoError SsoTokenCache × World :=
  match loadClientRegistration w.regFile with
  | .error e => (.error e, w)
  | .ok loaded =>
      let client : Option RegisterClientResponse :=
        match loaded, cached with
        | none, some c =>
            if c.ClientId ≠ "" ∧ c.ClientSecret ≠ "" then
              some { ClientID := c.ClientId
                     ClientSecret := c.ClientSecret
                     ClientIDIssuedAt := c.ClientIdIssuedAt
                     ClientSecretExpiresAt := c.ClientSecretExpiresAt }
            else none
        | other, _ => other
      match client with
      | none =>
          match registerClient s env cached w with
          | (.error e, w) => (.error e, w)
          | (.ok client2, w) => getTokenWithClient s env cached (some client2) w
      | some c =>
          if c.ClientID = "" ∨ c.ClientSecret = "" ∨
              clientSecretExpired env.clock c.ClientSecretExpiresAt then
            match registerClient s env cached w with
            | (.error e, w) => (.error e, w)
            | (.ok client2, w) => getTokenWithClient s env cached (some client2) w
          else
            match persistClientCredentials s (some c) cached w with
            | (.error e, w) => (.error e, w)
            | (.ok _, w) => getTokenWithClient s env cached (some c) w

/-- Go `DeviceCodeFetcher.GetToken` (src/unnamed/part_000 lines 551-608):
return the cached token when present, non-empty and unexpired; otherwise
resolve a client registration and proceed to refresh or device
authorization. -/
def GetToken (s : Sso) (env : NetEnv) (w : World) :
    Except GoError SsoTokenCache × World :=
  match readTokenCacheM w with
  | (.error e, w) => (.error e, w)
  | (.ok cached, w) =>
      match cached with
      | some c =>
          if c.AccessToken ≠ "" ∧ ¬tokenExpired env.clock c.ExpiresAt then (.ok c, w)
          else getTokenResolveClient s env cached w
      | none => getTokenResolveClient s env cached w

/-- Go `AccountInfo` (src/cmd/portal_client.go lines 86-89). -/
structure AccountInfo where
  AccountID : String := ""
  AccountName : String := ""
deriving DecidableEq, Repr

/-- Go `RoleInfo` (src/cmd/portal_client.go lines 110-113). -/
structure RoleInfo where
  AccountID : String := ""
  RoleName : String := ""
deriving DecidableEq, Repr

/-- Go `computeNextToken` (src/cmd/portal_client.go lines 428-436).  The Go
function returns a string: `""` (no next page, modelled `none`) or
`strconv.Itoa(pageNumber+1)` (modelled `some (pageNumber+1)`; the numeral
string is non-empty and unchanged by `strings.TrimSpace`). -/
def computeNextToken (total pageNumber pageSize : Int) : Option Int :=
  if pageSize ≤ 0 ∨ pageNumber ≤ 0 then none
  else if pageNumber * pageSize < total then some (pageNumber + 1)
  else none

/-- Go `resolvePageNumber` (src/cmd/portal_client.go lines 413-425), on the
`Option Int` model of the next-token string: an explicit positive page
number wins; an absent token means page 1; a present token must be a
positive page number. -/
def resolvePageNumber (pageNumber : Int) (nextToken : Option Int) :
    Except GoError Int :=
  if 0 < pageNumber then .ok pageNumber
  else
    match nextToken with
    | none => .ok 1
    | some page =>
        if page < 1 then
          .error (.msg "invalid NextToken: expect a positive integer page number")
        else .ok page

/-- Go `ListAccountsResponse` (src/cmd/portal_client.go lines 100-107),
with `NextToken` in the `Option Int` model of `computeNextToken`. -/
structure ListAccountsResponse where
  Total : Int := 0
  PageNumber : Int := 0
  PageSize : Int := 0
  AccountList : List AccountInfo := []
  NextToken : Option Int := none
deriving DecidableEq, Repr

/-- Go `ListAccountRolesResponse` (src/cmd/portal_client.go lines 125-132),
with `NextToken` in the `Option Int` model of `computeNextToken`. -/
structure ListAccountRolesResponse where
  Total : Int := 0
  PageNumber : Int := 0
  PageSize : Int := 0
  RoleList : List RoleInfo := []
  NextToken : Option Int := none
deriving DecidableEq, Repr

/-- Go `Sso.fetchAllAccounts` (src/unnamed/part_000 lines 728-749), with
the portal client modelled as serving a fixed sequence of page responses in
order.  Each iteration appends the page's accounts; the loop stops when the
page's next token is absent (`strings.TrimSpace(resp.NextToken) == ""`);
when the sequence is exhausted the client call fails, which the loop
surfaces as an error. -/
def fetchAllAccounts : List ListAccountsResponse → Except GoError (List AccountInfo)
  | [] => .error (.wrap "failed to list accounts" (.msg "no further response"))
  | resp :: rest =>
      match resp.NextToken with
      | none => .ok resp.AccountList
      | some _ =>
          match fetchAllAccounts rest with
          | .error e => .error e
          | .ok tail => .ok (resp.AccountList ++ tail)

/-- Go `Sso.fetchAllRoles` (src/unnamed/part_000 lines 751-773), modelled
exactly as `fetchAllAccounts` over role pages. -/
def fetchAllRoles : List ListAccountRolesResponse → Except GoError (List RoleInfo)
  | [] => .error (.wrap "failed to list roles" (.msg "no further response"))
  | resp :: rest =>
      match resp.NextToken with
      | none => .ok resp.RoleList
      | some _ =>
          match fetchAllRoles rest with
          | .error e => .error e
          | .ok tail => .ok (resp.RoleList ++ tail)

/-- Go `Profile` (src/unnamed/part_001 lines 48-63). -/
structure Profile where
  Name : String := ""
  Mode : String := ""
  AccessKey : String := ""
  SecretKey : String := ""
  Region : String := ""
  Endpoint : String := ""
  EndpointResolver : String := ""
  UseDualStack : Option Bool := none
  SessionToken : String := ""
  DisableSSL : Option Bool := none
  SsoSessionName : String := ""
  AccountId : String := ""
  RoleName : String := ""
  StsExpiration : Int := 0
deriving DecidableEq, Repr

/-- Go `SsoSession` (src/unnamed/part_001 lines 65-70). -/
structure SsoSession where
  Name : String := ""
  StartURL : String := ""
  Region : String := ""
  RegistrationScopes : List String := []
deriving DecidableEq, Repr

/-- Go `Configure` (src/unnamed/part_001 lines 41-46); the two Go maps are
modelled as association lists whose values may be nil pointers. -/
structure Configure where
  Current : String := ""
  Profiles : List (String × Option Profile) := []
  EnableColor : Bool := false
  SsoSession : List (String × Option SsoSession) := []
deriving DecidableEq, Repr

/-- Go `ModeSSO` (src/unnamed/part_001 line 35). -/
def ModeSSO : String := "sso"

/-- Go `Sso.loadSsoSession` (src/unnamed/part_000 lines 40-52): a nil
config, an unspecified session name, or a name not present in the config's
session map is an error; otherwise the (possibly nil) stored session is
returned. -/
def loadSsoSession (s : Sso) (cfg : Option Configure) :
    Except GoError (Option SsoSession) :=
  match cfg with
  | none => .error (.msg "the configuration file cannot be loaded")
  | some c =>
      if trimSpace s.SsoSessionName = "" then
        .error (.msg "the SSO session must be specified")
      else
        match c.SsoSession.lookup s.SsoSessionName with
        | none =>
            .error (.msg ("there is no SSO session named " ++ s.SsoSessionName ++
              " in the configuration file"))
        | some session => .ok session

/-- Go `Sso.applySessionDefaults` (src/unnamed/part_000 lines 54-67): fill
the blank start URL, region and scopes from the session; a nil session
changes nothing. -/
def applySessionDefaults (s : Sso) (session : Option SsoSession) : Sso :=
  match session with
  | none => s
  | some sess =>
      { s with
        StartURL := if trimSpace s.StartURL = "" then sess.StartURL else s.StartURL
        Region := if trimSpace s.Region = "" then sess.Region else s.Region
        Scopes := if s.Scopes = [] then sess.RegistrationScopes else s.Scopes }

/-- Whether `Sso.clearProfileStsCredentials` selects this profile
(src/unnamed/part_000 line 1011): SSO mode (case- and space-insensitively)
and the session name being logged out. -/
def profileMatchesSession (sessionName : String) (p : Profile) : Bool :=
  toLowerStr (trimSpace p.Mode) = ModeSSO ∧ p.SsoSessionName = sessionName

/-- Loop body of `Sso.clearProfileStsCredentials` (src/unnamed/part_000
lines 1014-1019): the fields the logout clears on a selected profile. -/
def clearStsFields (p : Profile) : Profile :=
  { p with
    AccessKey := ""
    SecretKey := ""
    SessionToken := ""
    StsExpiration := 0
    RoleName := ""
    AccountId := "" }

/-- Go `Sso.clearProfileStsCredentials` (src/unnamed/part_000
lines 1005-1027): a nil config is an error; every non-nil profile in SSO
mode bound to this session is cleared; the config write is modelled as
succeeding. -/
def clearProfileStsCredentials (s : Sso) (cfg : Option Configure) :
    Except GoError Configure :=
  match cfg with
  | none => .error (.msg "the configuration file cannot be loaded")
  | some c =>
      .ok { c with
        Profiles := c.Profiles.map fun entry =>
          match entry.2 with
          | none => entry
          | some p =>
              if profileMatchesSession s.SsoSessionName p then
                (entry.1, some (clearStsFields p))
              else entry }

/-- Go `Sso.revokeCachedToken` (src/unnamed/part_000 lines 968-989): a nil
cache is an error; missing client credentials are a local error; an empty
refresh token is a local no-op success; otherwise the OAuth revoke is
called.  The second component is the list of network calls performed. -/
def revokeCachedToken (env : NetEnv) (tokenCache : Option SsoTokenCache) :
    Except GoError Unit × List NetOp :=
  match tokenCache with
  | none => (.error (.msg "token cache is empty"), [])
  | some c =>
      let clientID := trimSpace c.ClientId
      let clientSecret := trimSpace c.ClientSecret
      if clientID = "" ∨ clientSecret = "" then
        (.error (.msg "client credentials are missing in the cache, please login first"), [])
      else
        let token := trimSpace c.RefreshToken
        if token = "" then (.ok (), [])
        else
          oauthRevokeToken env
            { ClientID := clientID, ClientSecret := clientSecret, Token := token }

/-- Go `Sso.clearCachedToken` (src/unnamed/part_000 lines 991-1003):
remove the token cache file (removal modelled as succeeding; a missing file
is fine). -/
def clearCachedToken (_tf : TokenCacheFile) : TokenCacheFile :=
  TokenCacheFile.missing

/-- Go `Sso.Logout` (src/unnamed/part_000 lines 933-966).  Results are the
returned error status, the token cache file after the call, the config
after the call, and the network calls performed. -/
def Logout (s : Sso) (env : NetEnv) (cfg : Option Configure)
    (tf : TokenCacheFile) :
    Except GoError Unit × TokenCacheFile × Option Configure × List NetOp :=
  match loadSsoSession s cfg with
  | .error e => (.error e, tf, cfg, [])
  | .ok session =>
      let s := applySessionDefaults s session
      if trimSpace s.StartURL = "" then
        (.error (.msg ("the sign-in URL of SSO session " ++ s.SsoSessionName ++
          " is not configured")), tf, cfg, [])
      else
        match readTokenCache tf with
        | (.error e, tf) => (.error e, tf, cfg, [])
        | (.ok none, tf) =>
            match clearProfileStsCredentials s cfg with
            | .error e => (.error e, tf, cfg, [])
            | .ok cfg2 => (.ok (), tf, some cfg2, [])
        | (.ok (some tokenCache), tf) =>
            match revokeCachedToken env (some tokenCache) with
            | (.error e, ops) => (.error e, tf, cfg, ops)
            | (.ok (), ops) =>
                let tf := clearCachedToken tf
                match clearProfileStsCredentials s cfg with
                | .error e => (.error e, tf, cfg, ops)
                | .ok cfg2 => (.ok (), tf, some cfg2, ops)

/-! Concrete clock and network environment used to instantiate theorems
with hypotheses at concrete inputs. -/

/-- Concrete clock: instant 0, a parser that reads this development's one
fixed timestamp as instant 100, and a constant formatter. -/
def exClock : Clock :=
  { now := 0
    nowMilli := 0
    parseRFC3339 := fun ts => if ts = "2030-01-01T00:00:00Z" then some 100 else none
    fmtRFC3339 := fun _ => "2030-01-01T00:00:00Z" }

/-- Concrete network environment whose authorization server answers every
request in a fixed way. -/
def exNetEnv : NetEnv :=
  { clock := exClock
    uuid := fun _ => "00000000-0000-0000-0000-000000000000"
    registerResp := fun _ _ => .ok { ClientID := "cid-new", ClientSecret := "csec-new" }
    createTokenResp := fun _ _ =>
      .error (.oauthAPI 400 { Error := "authorization_pending", ErrorDescription := "" })
    deviceAuthResp := fun _ =>
      .ok { DeviceCode := "dc"
            UserCode := "uc"
            VerificationURI := "https://verify.example"
            VerificationURIComplete := "https://verify.example?user_code=uc"
            ExpiresIn := 3
            Interval := 1 }
    revokeResp := fun _ => .ok () }

/-- Concrete SSO profile used as a logout target. -/
def exProfile : Profile :=
  { Name := "dev"
    Mode := "sso"
    AccessKey := "AKID"
    SecretKey := "SECRET"
    Region := "ap-southeast-1"
    Endpoint := "https://open.example"
    EndpointResolver := "resolver"
    SessionToken := "STS-TOKEN"
    SsoSessionName := "mysess"
    AccountId := "210001"
    RoleName := "admin"
    StsExpiration := 99 }

/-- Concrete configuration holding `exProfile` and the session `mysess`. -/
def exConfigure : Configure :=
  { Current := "dev"
    Profiles := [("dev", some exProfile)]
    SsoSession := [("mysess", some { Name := "mysess"
                                     StartURL := "https://start.example"
                                     Region := "ap-southeast-1" })] }

/-- Concrete `Sso` value bound to the session `mysess`. -/
def exSso : Sso := { SsoSessionName := "mysess" }

/-! Claim theorems. -/

/-- C6, counterexample: the computed next cursor is NOT `page_number+1`
whenever `total > page_number*page_size` — at `total = 1, page_number = 0,
page_size = 1` the inequality holds but `computeNextToken` returns `none`
because of its positivity guard. -/
theorem computeNextToken_claim_counterexample :
    ¬ (∀ total pageNumber pageSize : Int,
        (computeNextToken total pageNumber pageSize = some (pageNumber + 1) ↔
          pageNumber * pageSize < total)) := by
  intro h
  have h1 := (h 1 0 1).mpr (by norm_num)
  simp [computeNextToken] at h1

/-- C6 (amended): the computed next cursor is `page_number+1` exactly when
`page_number` and `page_size` are positive AND `total > page_number*page_size`,
and is absent otherwise. -/
theorem computeNextToken_spec (total pageNumber pageSize : Int) :
    computeNextToken total pageNumber pageSize =
      (if 0 < pageNumber ∧ 0 < pageSize ∧ pageNumber * pageSize < total then
        some (pageNumber + 1)
      else none) := by
  unfold computeNextToken
  by_cases h1 : pageSize ≤ 0 ∨ pageNumber ≤ 0
  · rw [if_pos h1, if_neg]
    rintro ⟨ha, hb, -⟩
    rcases h1 with h1 | h1 <;> omega
  · rw [if_neg h1]
    push_neg at h1
    obtain ⟨hps, hpn⟩ := h1
    by_cases h2 : pageNumber * pageSize < total
    · rw [if_pos h2, if_pos ⟨by omega, by omega, h2⟩]
    · rw [if_neg h2, if_neg]
      rintro ⟨-, -, hc⟩
      exact h2 hc

/-- C2: for every error carrying an OAuth error code, the classification
maps `authorization_pending` to retry, `invalid_client` to re-register,
`invalid_token` to fallback-to-device-authorization, the five other
documented codes to a terminal message, and every unrecognized code to a
terminal (no retry / no re-register / no fallback) message containing that
code. -/
theorem classifyCreateTokenError_complete (e : GoError) (code : String)
    (h : oauthErrorCode e = some code) :
    (code = "authorization_pending" →
      classifyCreateTokenError e = ({ Retry := true }, true))
    ∧ (code = "invalid_client" →
      classifyCreateTokenError e =
        ({ ReRegister := true
           Message := "client registration is invalid; please retry login" }, true))
    ∧ (code = "invalid_token" →
      classifyCreateTokenError e =
        ({ FallbackToDeviceAuth := true
           Message := "token is invalid; please retry login" }, true))
    ∧ (code = "invalid_device_code" →
      classifyCreateTokenError e =
        ({ Message := "device code is invalid or expired; please retry login" }, true))
    ∧ (code = "expired_token" →
      classifyCreateTokenError e =
        ({ Message := "device code is invalid or expired; please retry login" }, true))
    ∧ (code = "invalid_request" →
      classifyCreateTokenError e =
        ({ Message := "token request parameters are invalid" }, true))
    ∧ (code = "unsupported_grant_type" →
      classifyCreateTokenError e =
        ({ Message := "token grant type is not supported" }, true))
    ∧ (code = "server_error" →
      classifyCreateTokenError e =
        ({ Message := "server error while requesting token" }, true))
    ∧ (code ∉ ["authorization_pending", "invalid_device_code", "expired_token",
          "invalid_token", "invalid_request", "invalid_client",
          "unsupported_grant_type", "server_error"] →
        (classifyCreateTokenError e).1.Retry = false
        ∧ (classifyCreateTokenError e).1.ReRegister = false
        ∧ (classifyCreateTokenError e).1.FallbackToDeviceAuth = false
        ∧ ∃ s1 s2, (classifyCreateTokenError e).1.Message = s1 ++ code ++ s2) := by
  unfold classifyCreateTokenError
  rw [h]
  refine ⟨?_, ?_, ?_, ?_, ?_, ?_, ?_, ?_, ?_⟩
  all_goals first
  | (intro hc; subst hc; simp)
  | (intro hc
     simp only [List.mem_cons, List.not_mem_nil, or_false, not_or] at hc
     obtain ⟨h1, h2, h3, h4, h5, h6, h7, h8⟩ := hc
     simp only [h1, h2, h3, h4, h5, h6, h7, h8, if_false, or_self, if_neg,
       not_false_eq_true, or_false, false_or]
     exact ⟨trivial, trivial, trivial, "unknown error: ", "", by simp⟩)

/-- C2, witness: the unrecognized code `bogus_code` is classified as a
terminal action whose message contains the code. -/
theorem classifyCreateTokenError_complete_witness :
    (classifyCreateTokenError (.oauthAPI 400 { Error := "bogus_code", ErrorDescription := "" })).1.Retry = false
    ∧ (classifyCreateTokenError (.oauthAPI 400 { Error := "bogus_code", ErrorDescription := "" })).1.ReRegister = false
    ∧ (classifyCreateTokenError (.oauthAPI 400 { Error := "bogus_code", ErrorDescription := "" })).1.FallbackToDeviceAuth = false
    ∧ ∃ s1 s2, (classifyCreateTokenError (.oauthAPI 400 { Error := "bogus_code", ErrorDescription := "" })).1.Message =
        s1 ++ "bogus_code" ++ s2 :=
  (classifyCreateTokenError_complete
    (.oauthAPI 400 { Error := "bogus_code", ErrorDescription := "" })
    "bogus_code" rfl).2.2.2.2.2.2.2.2 (by decide)

/-- C5, counterexample: `OAuthClient.RevokeToken` with an empty token does
perform no network call, but it does NOT succeed — it returns the local
validation error "token is required". -/
theorem oauthRevokeToken_empty_counterexample :
    ¬ ((oauthRevokeToken exNetEnv
          { ClientID := "cid", ClientSecret := "csec", Token := "" }).1 = .ok ()
      ∧ (oauthRevokeToken exNetEnv
          { ClientID := "cid", ClientSecret := "csec", Token := "" }).2 = []) := by
  decide

/-- C5 (amended): `OAuthClient.RevokeToken` with an empty (or
all-whitespace) token performs no network call but fails with a local
validation error; the succeed-without-calling no-op on an empty token is
implemented one level up, in `Sso.revokeCachedToken`, which returns
success without any network call when the cached refresh token is blank. -/
theorem revokeToken_empty_local (env : NetEnv) (req : RevokeTokenRequest)
    (c : SsoTokenCache)
    (hid : trimSpace req.ClientID ≠ "") (hsec : trimSpace req.ClientSecret ≠ "")
    (htok : trimSpace req.Token = "")
    (hcid : trimSpace c.ClientId ≠ "") (hcsec : trimSpace c.ClientSecret ≠ "")
    (hcref : trimSpace c.RefreshToken = "") :
    oauthRevokeToken env req = (.error (.msg "token is required"), [])
    ∧ revokeCachedToken env (some c) = (.ok (), []) := by
  constructor
  · unfold oauthRevokeToken
    rw [if_neg (by simp [hid, hsec]), if_pos htok]
  · unfold revokeCachedToken
    dsimp only
    rw [if_neg (by simp [hcid, hcsec]), if_pos hcref]

/-- C5, witness: concrete empty-token revoke requests. -/
theorem revokeToken_empty_local_witness :
    oauthRevokeToken exNetEnv { ClientID := "cid", ClientSecret := "csec", Token := " " } =
      (.error (.msg "token is required"), [])
    ∧ revokeCachedToken exNetEnv
        (some { ClientId := "cid", ClientSecret := "csec", RefreshToken := "" }) =
      (.ok (), []) :=
  revokeToken_empty_local exNetEnv
    { ClientID := "cid", ClientSecret := "csec", Token := " " }
    { ClientId := "cid", ClientSecret := "csec", RefreshToken := "" }
    (by decide) (by decide) (by decide) (by decide) (by decide) (by decide)

/-- C9, counterexample: an empty token cache file fails to decode (with
`io.EOF`), is treated as absent — but it is NOT removed, against the
claim that every parse-failing cache file is removed. -/
theorem readTokenCache_empty_counterexample :
    (readTokenCache TokenCacheFile.empty).1 = .ok none
    ∧ (readTokenCache TokenCacheFile.empty).2 ≠ TokenCacheFile.missing := by
  decide

/-- C9 (amended): the token cache treats a missing file as absent, treats a
parse-failing file as absent — removing it unless the failure is empty
input (`io.EOF`), in which case the file is left in place — and returns a
decoded record as-is; the client-registration cache instead surfaces every
parse failure as an error, while a missing file stays absent. -/
theorem cacheRead_corruption_policy (detail : String) (t : SsoTokenCache) :
    readTokenCache TokenCacheFile.missing = (.ok none, TokenCacheFile.missing)
    ∧ readTokenCache TokenCacheFile.malformed = (.ok none, TokenCacheFile.missing)
    ∧ readTokenCache TokenCacheFile.empty = (.ok none, TokenCacheFile.empty)
    ∧ readTokenCache (TokenCacheFile.valid t) = (.ok (some t), TokenCacheFile.valid t)
    ∧ loadClientRegistration RegCacheFile.missing = .ok none
    ∧ loadClientRegistration (RegCacheFile.malformed detail) =
        .error (.msg ("failed to read the client cache: " ++ detail)) :=
  ⟨rfl, rfl, rfl, rfl, rfl, rfl⟩

/-- The account loop succeeds with the concatenation of a prefix of the
served pages as soon as some served page carries no next token. -/
lemma fetchAllAccounts_ok_of_last (l : List ListAccountsResponse)
    (h : ∃ r ∈ l, r.NextToken = none) :
    ∃ n, n ≤ l.length ∧
      fetchAllAccounts l = .ok (((l.take n).map (·.AccountList)).flatten) := by
  induction l with
  | nil => simp at h
  | cons r rest ih =>
      cases hnt : r.NextToken with
      | none =>
          exact ⟨1, by simp, by simp [fetchAllAccounts, hnt]⟩
      | some k =>
          have h' : ∃ x ∈ rest, x.NextToken = none := by
            rcases h with ⟨x, hx, hxe⟩
            rcases List.mem_cons.mp hx with hx | hx
            · subst hx; rw [hxe] at hnt; exact absurd hnt (by simp)
            · exact ⟨x, hx, hxe⟩
          rcases ih h' with ⟨n, hn, heq⟩
          exact ⟨n + 1, by simpa using hn,
            by simp [fetchAllAccounts, hnt, heq]⟩

/-- The role loop succeeds with the concatenation of a prefix of the
served pages as soon as some served page carries no next token. -/
lemma fetchAllRoles_ok_of_last (l : List ListAccountRolesResponse)
    (h : ∃ r ∈ l, r.NextToken = none) :
    ∃ n, n ≤ l.length ∧
      fetchAllRoles l = .ok (((l.take n).map (·.RoleList)).flatten) := by
  induction l with
  | nil => simp at h
  | cons r rest ih =>
      cases hnt : r.NextToken with
      | none =>
          exact ⟨1, by simp, by simp [fetchAllRoles, hnt]⟩
      | some k =>
          have h' : ∃ x ∈ rest, x.NextToken = none := by
            rcases h with ⟨x, hx, hxe⟩
            rcases List.mem_cons.mp hx with hx | hx
            · subst hx; rw [hxe] at hnt; exact absurd hnt (by simp)
            · exact ⟨x, hx, hxe⟩
          rcases ih h' with ⟨n, hn, heq⟩
          exact ⟨n + 1, by simpa using hn,
            by simp [fetchAllRoles, hnt, heq]⟩

/-- A page whose `total` does not exceed `page_number*page_size` gets no
next token from `computeNextToken`. -/
lemma computeNextToken_none_of_exhausted (total pageNumber pageSize : Int)
    (h : total ≤ pageNumber * pageSize) :
    computeNextToken total pageNumber pageSize = none := by
  unfold computeNextToken
  by_cases h1 : pageSize ≤ 0 ∨ pageNumber ≤ 0
  · rw [if_pos h1]
  · rw [if_neg h1, if_neg (by omega)]

/-- C7: for every sequence of served account pages and role pages whose
next tokens come from `computeNextToken` and in which some page satisfies
`total ≤ page_number*page_size`, both accumulation loops terminate with
success and return exactly the concatenation, in order, of the item lists
of the pages they fetched (a prefix of the served sequence). -/
theorem fetchAll_pagination_terminates
    (as : List ListAccountsResponse) (rs : List ListAccountRolesResponse)
    (haNT : ∀ r ∈ as, r.NextToken = computeNextToken r.Total r.PageNumber r.PageSize)
    (haFin : ∃ r ∈ as, r.Total ≤ r.PageNumber * r.PageSize)
    (hrNT : ∀ r ∈ rs, r.NextToken = computeNextToken r.Total r.PageNumber r.PageSize)
    (hrFin : ∃ r ∈ rs, r.Total ≤ r.PageNumber * r.PageSize) :
    (∃ n, n ≤ as.length ∧
      fetchAllAccounts as = .ok (((as.take n).map (·.AccountList)).flatten))
    ∧ (∃ n, n ≤ rs.length ∧
      fetchAllRoles rs = .ok (((rs.take n).map (·.RoleList)).flatten)) := by
  constructor
  · refine fetchAllAccounts_ok_of_last as ?_
    rcases haFin with ⟨r, hr, hle⟩
    exact ⟨r, hr, by rw [haNT r hr]
                     exact computeNextToken_none_of_exhausted _ _ _ hle⟩
  · refine fetchAllRoles_ok_of_last rs ?_
    rcases hrFin with ⟨r, hr, hle⟩
    exact ⟨r, hr, by rw [hrNT r hr]
                     exact computeNextToken_none_of_exhausted _ _ _ hle⟩

/-- C7, witness: two concrete two-page sequences whose second page is
exhausted. -/
theorem fetchAll_pagination_terminates_witness :
    (∃ n, n ≤ ([{ Total := 3, PageNumber := 1, PageSize := 2,
                  AccountList := [{ AccountID := "a1" }, { AccountID := "a2" }],
                  NextToken := some 2 },
                { Total := 3, PageNumber := 2, PageSize := 2,
                  AccountList := [{ AccountID := "a3" }],
                  NextToken := none }] : List ListAccountsResponse).length ∧
      fetchAllAccounts
        [{ Total := 3, PageNumber := 1, PageSize := 2,
           AccountList := [{ AccountID := "a1" }, { AccountID := "a2" }],
           NextToken := some 2 },
         { Total := 3, PageNumber := 2, PageSize := 2,
           AccountList := [{ AccountID := "a3" }],
           NextToken := none }] =
        .ok ((([{ Total := 3, PageNumber := 1, PageSize := 2,
                  AccountList := [{ AccountID := "a1" }, { AccountID := "a2" }],
                  NextToken := some 2 },
                { Total := 3, PageNumber := 2, PageSize := 2,
                  AccountList := [{ AccountID := "a3" }],
                  NextToken := none }] : List ListAccountsResponse).take n).map
            (·.AccountList)).flatten)
    ∧ (∃ n, n ≤ ([{ Total := 1, PageNumber := 1, PageSize := 50,
                    RoleList := [{ RoleName := "admin" }],
                    NextToken := none }] : List ListAccountRolesResponse).length ∧
      fetchAllRoles
        [{ Total := 1, PageNumber := 1, PageSize := 50,
           RoleList := [{ RoleName := "admin" }],
           NextToken := none }] =
        .ok ((([{ Total := 1, PageNumber := 1, PageSize := 50,
                  RoleList := [{ RoleName := "admin" }],
                  NextToken := none }] : List ListAccountRolesResponse).take n).map
            (·.RoleList)).flatten) :=
  fetchAll_pagination_terminates _ _
    (by decide) (by decide) (by decide) (by decide)

/-- Applying session defaults never changes the session name. -/
lemma applySessionDefaults_ssoSessionName (s : Sso) (sess : Option SsoSession) :
    (applySessionDefaults s sess).SsoSessionName = s.SsoSessionName := by
  cases sess <;> rfl

/-- C3, counterexample: a logout over the profile `dev` (SSO mode, session
`mysess`) zeroes `account_id` and `role_name` as well, against the claim
that only the four derived STS fields change. -/
theorem logout_clears_claim_counterexample :
    (Logout exSso exNetEnv (some exConfigure) TokenCacheFile.missing).2.2.1 =
      some { exConfigure with Profiles := [("dev", some (clearStsFields exProfile))] }
    ∧ (clearStsFields exProfile).AccountId = "" ∧ exProfile.AccountId = "210001"
    ∧ (clearStsFields exProfile).RoleName = "" ∧ exProfile.RoleName = "admin" := by
  decide

/-- C3 (amended): on a logout with no cached token, every SSO-mode profile
bound to the session has its derived STS fields (`access_key`,
`secret_key`, `session_token`, `sts_expiration`) AND its account/role
binding (`account_id`, `role_name`) cleared, while its other fields
(`name`, `mode`, `region`, `endpoint`, `endpoint_resolver`,
`use_dual_stack`, `disable_ssl`, `sso_session_name`) are left unchanged;
profiles not matching the session are untouched, and no network call is
made. -/
theorem logout_clears_sts_and_binding
    (s : Sso) (env : NetEnv) (cfg : Configure) (tf : TokenCacheFile)
    (sess : Option SsoSession)
    (hsess : loadSsoSession s (some cfg) = .ok sess)
    (hurl : trimSpace (applySessionDefaults s sess).StartURL ≠ "")
    (hread : readTokenCache tf = (.ok none, tf)) :
    ∃ cfg', Logout s env (some cfg) tf = (.ok (), tf, some cfg', [])
      ∧ ∀ name p, (name, some p) ∈ cfg.Profiles →
          (profileMatchesSession s.SsoSessionName p = true →
            (name, some (clearStsFields p)) ∈ cfg'.Profiles
            ∧ (clearStsFields p).AccessKey = ""
            ∧ (clearStsFields p).SecretKey = ""
            ∧ (clearStsFields p).SessionToken = ""
            ∧ (clearStsFields p).StsExpiration = 0
            ∧ (clearStsFields p).RoleName = ""
            ∧ (clearStsFields p).AccountId = ""
            ∧ (clearStsFields p).Name = p.Name
            ∧ (clearStsFields p).Mode = p.Mode
            ∧ (clearStsFields p).Region = p.Region
            ∧ (clearStsFields p).Endpoint = p.Endpoint
            ∧ (clearStsFields p).EndpointResolver = p.EndpointResolver
            ∧ (clearStsFields p).UseDualStack = p.UseDualStack
            ∧ (clearStsFields p).DisableSSL = p.DisableSSL
            ∧ (clearStsFields p).SsoSessionName = p.SsoSessionName)
          ∧ (profileMatchesSession s.SsoSessionName p = false →
            (name, some p) ∈ cfg'.Profiles) := by
  unfold Logout
  rw [hsess]
  dsimp only
  rw [if_neg hurl, hread]
  dsimp only
  unfold clearProfileStsCredentials
  dsimp only
  refine ⟨_, rfl, ?_⟩
  intro name p hp
  rw [applySessionDefaults_ssoSessionName]
  constructor
  · intro hmatch
    refine ⟨?_, rfl, rfl, rfl, rfl, rfl, rfl, rfl, rfl, rfl, rfl, rfl, rfl, rfl, rfl⟩
    have := List.mem_map_of_mem
      (fun entry : String × Option Profile =>
        match entry.2 with
        | none => entry
        | some p =>
            if profileMatchesSession s.SsoSessionName p then
              (entry.1, some (clearStsFields p))
            else entry) hp
    simpa [hmatch] using this
  · intro hmatch
    have := List.mem_map_of_mem
      (fun entry : String × Option Profile =>
        match entry.2 with
        | none => entry
        | some p =>
            if profileMatchesSession s.SsoSessionName p then
              (entry.1, some (clearStsFields p))
            else entry) hp
    simpa [hmatch] using this

/-- C3, witness: the amended statement instantiated at the concrete logout
of the counterexample. -/
theorem logout_clears_sts_and_binding_witness :
    ∃ cfg', Logout exSso exNetEnv (some exConfigure) TokenCacheFile.missing =
        (.ok (), TokenCacheFile.missing, some cfg', [])
      ∧ ∀ name p, (name, some p) ∈ exConfigure.Profiles →
          (profileMatchesSession exSso.SsoSessionName p = true →
            (name, some (clearStsFields p)) ∈ cfg'.Profiles
            ∧ (clearStsFields p).AccessKey = ""
            ∧ (clearStsFields p).SecretKey = ""
            ∧ (clearStsFields p).SessionToken = ""
            ∧ (clearStsFields p).StsExpiration = 0
            ∧ (clearStsFields p).RoleName = ""
            ∧ (clearStsFields p).AccountId = ""
            ∧ (clearStsFields p).Name = p.Name
            ∧ (clearStsFields p).Mode = p.Mode
            ∧ (clearStsFields p).Region = p.Region
            ∧ (clearStsFields p).Endpoint = p.Endpoint
            ∧ (clearStsFields p).EndpointResolver = p.EndpointResolver
            ∧ (clearStsFields p).UseDualStack = p.UseDualStack
            ∧ (clearStsFields p).DisableSSL = p.DisableSSL
            ∧ (clearStsFields p).SsoSessionName = p.SsoSessionName)
          ∧ (profileMatchesSession exSso.SsoSessionName p = false →
            (name, some p) ∈ cfg'.Profiles) :=
  logout_clears_sts_and_binding exSso exNetEnv exConfigure TokenCacheFile.missing
    (some { Name := "mysess", StartURL := "https://start.example",
            Region := "ap-southeast-1" })
    (by decide) (by decide) (by decide)

/-- C4: when a cached token exists and the revoke step fails, `Logout`
returns exactly that error, the token cache file is not deleted, and the
config (hence every profile) is exactly as before the call. -/
theorem logout_revoke_failure_aborts
    (s : Sso) (env : NetEnv) (cfg : Option Configure) (t : SsoTokenCache)
    (sess : Option SsoSession) (e : GoError) (ops : List NetOp)
    (hsess : loadSsoSession s cfg = .ok sess)
    (hurl : trimSpace (applySessionDefaults s sess).StartURL ≠ "")
    (hrev : revokeCachedToken env (some t) = (.error e, ops)) :
    Logout s env cfg (TokenCacheFile.valid t) =
      (.error e, TokenCacheFile.valid t, cfg, ops) := by
  unfold Logout
  rw [hsess]
  dsimp only
  rw [if_neg hurl]
  dsimp only [readTokenCache]
  rw [hrev]

/-- C4, witness: a logout whose revoke step fails locally because the
cached record carries no client credentials. -/
theorem logout_revoke_failure_aborts_witness :
    Logout exSso exNetEnv (some exConfigure)
        (TokenCacheFile.valid { AccessToken := "at", RefreshToken := "rt" }) =
      (.error (.msg "client credentials are missing in the cache, please login first"),
       TokenCacheFile.valid { AccessToken := "at", RefreshToken := "rt" },
       some exConfigure, []) :=
  logout_revoke_failure_aborts exSso exNetEnv (some exConfigure)
    { AccessToken := "at", RefreshToken := "rt" }
    (some { Name := "mysess", StartURL := "https://start.example",
            Region := "ap-southeast-1" })
    (.msg "client credentials are missing in the cache, please login first") []
    (by decide) (by decide) (by decide)

/-- C10: a successful refresh stores a record whose `refresh_token` is the
refresh token that was SENT — whatever refresh token the server's response
carried is overwritten before the store and never persisted. -/
theorem refreshToken_keeps_sent_refresh_token
    (s : Sso) (env : NetEnv) (refreshTok : String) (c : RegisterClientResponse)
    (w : World) (resp : CreateTokenResponse)
    (hid : trimSpace c.ClientID ≠ "") (hsec : trimSpace c.ClientSecret ≠ "")
    (htok : trimSpace refreshTok ≠ "")
    (hresp : env.createTokenResp w.tokenCalls
        { GrantType := "refresh_token", ClientID := c.ClientID,
          ClientSecret := c.ClientSecret, RefreshToken := refreshTok,
          DeviceCode := "" } = .ok resp)
    (hne : resp.AccessToken ≠ "") :
    ∃ token w', refreshToken s env refreshTok (some c) w = (.ok token, w')
      ∧ token.RefreshToken = refreshTok
      ∧ token.AccessToken = resp.AccessToken
      ∧ w'.tokenFile = .valid token := by
  have h1 : trimSpace "refresh_token" = "refresh_token" := by decide
  have h2 : toLowerStr "refresh_token" = "refresh_token" := by decide
  set token : SsoTokenCache :=
    { StartURL := s.StartURL
      SessionName := s.SsoSessionName
      AccessToken := resp.AccessToken
      ExpiresAt := env.clock.fmtRFC3339 (env.clock.now + resp.ExpiresIn)
      ClientId := c.ClientID
      ClientSecret := c.ClientSecret
      ClientIdIssuedAt := c.ClientIDIssuedAt
      ClientSecretExpiresAt := c.ClientSecretExpiresAt
      RefreshToken := refreshTok
      Region := s.Region } with htoken
  refine ⟨token,
    { w with tokenFile := .valid token
             tokenCalls := w.tokenCalls + 1
             trace := w.trace ++ [NetOp.createToken] }, ?_, rfl, rfl, rfl⟩
  simp only [refreshToken, fetcherCreateToken, oauthCreateToken, storeToken,
    setAccessTokenToCache, h1, h2, hresp, hid, hsec, htok, hne]
  simp [htoken]

/-- Network environment whose token endpoint answers every request with a
fresh access token AND a server-chosen refresh token `server-rt`. -/
def exRefreshEnv : NetEnv :=
  { exNetEnv with
    createTokenResp := fun _ _ =>
      .ok { AccessToken := "new-at", TokenType := "Bearer",
            RefreshToken := "server-rt", ExpiresIn := 3600 } }

/-- C10, witness: even though the server answers with refresh token
`server-rt`, the stored record carries the sent `sent-rt`. -/
theorem refreshToken_keeps_sent_refresh_token_witness :
    ∃ token w',
      refreshToken exSso exRefreshEnv "sent-rt"
          (some { ClientID := "cid", ClientSecret := "csec" })
          { tokenFile := .missing, regFile := .missing } = (.ok token, w')
      ∧ token.RefreshToken = "sent-rt"
      ∧ token.AccessToken = "new-at"
      ∧ w'.tokenFile = .valid token :=
  refreshToken_keeps_sent_refresh_token exSso exRefreshEnv "sent-rt"
    { ClientID := "cid", ClientSecret := "csec" }
    { tokenFile := .missing, regFile := .missing }
    { AccessToken := "new-at", TokenType := "Bearer",
      RefreshToken := "server-rt", ExpiresIn := 3600 }
    (by decide) (by decide) (by decide) rfl (by decide)

/-- C1: with a cached record whose access token is non-empty and whose
`expires_at` parses to a future instant, `GetToken` returns exactly that
record and leaves the whole world — cache files, call counters AND the
network trace — unchanged: zero network calls. -/
theorem getToken_fast_path
    (s : Sso) (env : NetEnv) (w : World) (t : SsoTokenCache) (expTime : Int)
    (htf : w.tokenFile = .valid t)
    (hat : t.AccessToken ≠ "")
    (hexp_ne : t.ExpiresAt ≠ "")
    (hparse : env.clock.parseRFC3339 t.ExpiresAt = some expTime)
    (hfuture : env.clock.now < expTime) :
    GetToken s env w = (.ok t, w) := by
  have hnx : tokenExpired env.clock t.ExpiresAt = false := by
    unfold tokenExpired
    rw [if_neg hexp_ne, hparse]
    dsimp only
    exact decide_eq_false (by omega)
  unfold GetToken readTokenCacheM
  rw [htf]
  dsimp only [readTokenCache]
  rw [if_pos ⟨hat, by simp [hnx]⟩]
  rw [← htf]

/-- C1, witness: a concrete unexpired cached record is returned untouched
with an empty network trace. -/
theorem getToken_fast_path_witness :
    GetToken exSso exNetEnv
        { tokenFile := .valid { AccessToken := "cached-at"
                                ExpiresAt := "2030-01-01T00:00:00Z" }
          regFile := .missing } =
      (.ok { AccessToken := "cached-at", ExpiresAt := "2030-01-01T00:00:00Z" },
       { tokenFile := .valid { AccessToken := "cached-at"
                               ExpiresAt := "2030-01-01T00:00:00Z" }
         regFile := .missing }) :=
  getToken_fast_path exSso exNetEnv
    { tokenFile := .valid { AccessToken := "cached-at"
                            ExpiresAt := "2030-01-01T00:00:00Z" }
      regFile := .missing }
    { AccessToken := "cached-at", ExpiresAt := "2030-01-01T00:00:00Z" }
    100 rfl (by decide) (by decide) (by decide) (by decide)

/-- When every device-code poll is answered with a retry-classified error,
the poll loop runs to its deadline, returns the timeout error, and leaves
both cache files exactly as they were. -/
lemma pollLoop_timeout (s : Sso) (env : NetEnv) (client : RegisterClientResponse)
    (deviceCode : String) (interval deadline : Int)
    (hid : trimSpace client.ClientID ≠ "") (hsec : trimSpace client.ClientSecret ≠ "")
    (hdc : trimSpace deviceCode ≠ "")
    (hpoll : ∀ k, ∃ e, env.createTokenResp k
        { GrantType := deviceCodeGrantType, ClientID := client.ClientID,
          ClientSecret := client.ClientSecret, RefreshToken := "",
          DeviceCode := deviceCode } = .error e
        ∧ (classifyCreateTokenError e).1.Retry = true
        ∧ (classifyCreateTokenError e).2 = true) :
    ∀ now w, ∃ w', pollLoop s env client deviceCode interval deadline now w =
        (.error (.msg "authorization has timed out. Please try again"), w')
      ∧ w'.tokenFile = w.tokenFile ∧ w'.regFile = w.regFile := by
  have hgrant1 : trimSpace deviceCodeGrantType ≠ "" := by decide
  have hgrant2 : toLowerStr deviceCodeGrantType = deviceCodeGrantType := by decide
  have hgrant3 : deviceCodeGrantType ≠ "refresh_token" := by decide
  suffices h : ∀ n : Nat, ∀ now w, (deadline - now).toNat = n →
      ∃ w', pollLoop s env client deviceCode interval deadline now w =
          (.error (.msg "authorization has timed out. Please try again"), w')
        ∧ w'.tokenFile = w.tokenFile ∧ w'.regFile = w.regFile by
    intro now w
    exact h _ now w rfl
  intro n
  induction n using Nat.strong_induction_on with
  | _ n ih =>
    intro now w hmeas
    rw [pollLoop]
    by_cases hlt : now < deadline
    · rw [if_pos hlt]
      obtain ⟨e, he, hretry, hok⟩ := hpoll w.tokenCalls
      have hcall : fetcherCreateToken env deviceCodeGrantType "" deviceCode
          (some client) w =
          (.error e, { w with tokenCalls := w.tokenCalls + 1
                              trace := w.trace ++ [NetOp.createToken] }) := by
        simp only [fetcherCreateToken, oauthCreateToken, hgrant2]
        rw [if_neg hgrant1, if_neg (by simp [hid, hsec]),
          if_neg hgrant3, if_pos (Or.inl trivial), if_neg hdc]
        dsimp only
        rw [he]
      rw [hcall]
      dsimp only
      rcases hcl : classifyCreateTokenError e with ⟨act, b⟩
      rw [hcl] at hretry hok
      dsimp only at hretry hok
      subst hok
      dsimp only
      rw [if_pos hretry]
      have hlt1 : (1 : Int) ≤ max interval 1 := le_max_right _ _
      obtain ⟨w', heq, htf, hrf⟩ :=
        ih (deadline - (now + max interval 1)).toNat (by omega)
          (now + max interval 1)
          { w with tokenCalls := w.tokenCalls + 1
                   trace := w.trace ++ [NetOp.createToken] } rfl
      exact ⟨w', heq, htf, hrf⟩
    · rw [if_neg hlt]
      exact ⟨w, rfl, rfl, rfl⟩

/-- C8: when every poll before the deadline `start + expires_in` is
answered with a retry-classified error (no successful token response),
device authorization returns the timeout error and writes no token cache
record — both cache files are unchanged. -/
theorem performDeviceAuthorization_timeout
    (s : Sso) (env : NetEnv) (c : RegisterClientResponse) (w : World)
    (ar : StartDeviceAuthorizationResponse)
    (hid : trimSpace c.ClientID ≠ "") (hsec : trimSpace c.ClientSecret ≠ "")
    (hda : env.deviceAuthResp
        { ClientID := c.ClientID, ClientSecret := c.ClientSecret,
          Scopes := s.Scopes, PortalUrl := s.StartURL } = .ok ar)
    (hvuc : ar.VerificationURIComplete ≠ "")
    (hdc : trimSpace ar.DeviceCode ≠ "")
    (hpoll : ∀ k, ∃ e, env.createTokenResp k
        { GrantType := deviceCodeGrantType, ClientID := c.ClientID,
          ClientSecret := c.ClientSecret, RefreshToken := "",
          DeviceCode := ar.DeviceCode } = .error e
        ∧ (classifyCreateTokenError e).1.Retry = true
        ∧ (classifyCreateTokenError e).2 = true) :
    ∃ w', performDeviceAuthorization s env (some c) w =
        (.error (.msg "authorization has timed out. Please try again"), w')
      ∧ w'.tokenFile = w.tokenFile ∧ w'.regFile = w.regFile := by
  unfold performDeviceAuthorization oauthStartDeviceAuthorization
  dsimp only
  rw [if_neg (by simp [hid, hsec]), hda]
  dsimp only
  rw [if_neg (by simp [hvuc])]
  dsimp only
  rw [if_neg (by simp [hvuc])]
  obtain ⟨w', heq, htf, hrf⟩ :=
    pollLoop_timeout s env c ar.DeviceCode
      (if ar.Interval ≤ 0 then 5 else ar.Interval)
      (env.clock.now + ar.ExpiresIn) hid hsec hdc hpoll env.clock.now
      { w with trace := w.trace ++ [NetOp.startDeviceAuth] }
  exact ⟨w', heq, htf, hrf⟩

/-- C8, witness: with a server that always answers `authorization_pending`,
a concrete device authorization (deadline 3 seconds, interval 1 second)
times out and leaves both cache files untouched. -/
theorem performDeviceAuthorization_timeout_witness :
    ∃ w', performDeviceAuthorization exSso exNetEnv
        (some { ClientID := "cid", ClientSecret := "csec" })
        { tokenFile := .missing, regFile := .missing } =
        (.error (.msg "authorization has timed out. Please try again"), w')
      ∧ w'.tokenFile = ({ tokenFile := .missing, regFile := .missing } : World).tokenFile
      ∧ w'.regFile = ({ tokenFile := .missing, regFile := .missing } : World).regFile :=
  performDeviceAuthorization_timeout exSso exNetEnv
    { ClientID := "cid", ClientSecret := "csec" }
    { tokenFile := .missing, regFile := .missing }
    { DeviceCode := "dc", UserCode := "uc",
      VerificationURI := "https://verify.example",
      VerificationURIComplete := "https://verify.example?user_code=uc",
      ExpiresIn := 3, Interval := 1 }
    (by decide) (by decide) rfl (by decide) (by decide)
    (fun k => ⟨.oauthAPI 400 { Error := "authorization_pending", ErrorDescription := "" },
      rfl, by decide, by decide⟩)

end ByteplusCli
